import Mathlib

/-!
Shallow embedding of the Arize monitoring module
(`src/monitoring/bentoml-monitoring-arize/src/bentoml/monitoring/arize/__init__.py`).

The module buffers per-field observations over the lifetime of one logical
record, classifies the logged fields by role and type (`_stat_fields`), infers
an output mapping (`_infer_mapping`), converts completed records into rows
(`_map_data`), and drains the buffers into the sink (`ArizeMonitor.export_data`).

Modelling conventions:
* Python exceptions are modelled by the explicit `PyError` type; functions that
  can raise return `Except PyError _` or pair their result with
  `Option PyError`.  A raised exception in a mutating method returns the state
  as it stands at the moment of the raise, as in Python.
* Python floats are modelled as rationals (`Rat`).  The code under study only
  copies float values and truncates a timestamp to an integer; it performs no
  float arithmetic, so no rounding behaviour is lost.
* Warnings emitted through the module logger are modelled as explicit
  `Warning` values where the surrounding theorems observe them; the
  dropped-column warnings of `_stat_fields` do not affect any returned value
  and are not tracked.
* The external Arize client enums (`ModelTypes`, `Environments`) and the
  ambient contexts (wall clock, `trace_context.request_id`,
  `component_context`) are external collaborators; they are modelled as plain
  parameters.
-/

/-- Python exception values raised by the module, tagged by kind. -/
inductive PyError where
  | valueError (msg : String)
  | assertionError (msg : String)
  | attributeError (msg : String)
  | keyError (key : String)
  | indexError
  | notImplementedError
deriving DecidableEq

/-- Warnings the module sends to its logger, where theorems observe them. -/
inductive Warning where
  | extraColumns (bucket : String) (dropped : List String)
  | unsupportedModelType
  | noDataLogged
  | mappingNotSupported
deriving DecidableEq

/-- The dynamic value union `DataType = str | int | float | bool | List[float]`
of the source, as a tagged variant.  Floats are carried as rationals. -/
inductive DataType where
  | str (s : String)
  | int (i : Int)
  | float (q : Rat)
  | bool (b : Bool)
  | floatList (l : List Rat)
deriving DecidableEq

/-- The `Mapping` enum of the source: mapping solutions for bentoml data
fields to arize data fields. -/
inductive Mapping where
  | SCORED_CLASSIFICATION
  | CLASSIFICATION
  | REGRESSION
  | RANKING
deriving DecidableEq

/-- The Arize client `ModelTypes` enum (external collaborator).  The source
only distinguishes `SCORE_CATEGORICAL`, `NUMERIC`, and "anything else"; the
remaining constructors stand for the other members of the client enum. -/
inductive ModelTypes where
  | SCORE_CATEGORICAL
  | NUMERIC
  | RANKING
  | BINARY_CLASSIFICATION
  | OBJECT_DETECTION
deriving DecidableEq

/-- The Arize client `Environments` enum (external collaborator). -/
inductive Environments where
  | PRODUCTION
  | TRAINING
  | VALIDATION
deriving DecidableEq

/-- One declared column of the schema: the dict
`{"name": ..., "role": ..., "type": ...}` appended by `ArizeMonitor.log`. -/
structure Column where
  name : String
  role : String
  type : String
deriving DecidableEq

/-- The `_FieldStats` attrs class: six buckets of column names. -/
structure _FieldStats where
  prediction_label_columns : List String
  prediction_score_columns : List String
  actual_label_columns : List String
  actual_score_columns : List String
  feature_columns : List String
  embedding_feature_columns : List String
deriving DecidableEq

attribute [ext] _FieldStats

/-- The Arize client `Embedding` wrapper (external collaborator): the value is
a vector-typed embedding, not a scalar. -/
structure Embedding where
  vector : DataType
deriving DecidableEq

/-- A prediction or actual label as passed to the sink: either a scalar value
or a `(label, score)` tuple. -/
inductive ArizeLabel where
  | scalar (v : DataType)
  | pair (label : DataType) (score : DataType)
deriving DecidableEq

def BENTOML_MONITOR_ROLES : List String := ["feature", "prediction", "target"]

def BENTOML_MONITOR_TYPES : List String :=
  ["numerical", "categorical", "numerical_sequence"]

def COLUMN_TIME : String := "timestamp"

def COLUMN_RID : String := "request_id"

/-- `ArizeMonitor.PRESERVED_COLUMNS = ("timestamp", "request_id")`. -/
def PRESERVED_COLUMNS : List String := [COLUMN_TIME, COLUMN_RID]

/-- One iteration of the loop body of `_stat_fields`: route `column` into a
bucket of `fields` by its role and type, following the if/elif chain of the
source (lines 50-83).  Columns hitting a warning-only branch are dropped. -/
def _stat_route (fields : _FieldStats) (column : Column) : _FieldStats :=
  if column.role == "feature" then
    if column.type == "numerical_sequence" then
      { fields with embedding_feature_columns :=
          fields.embedding_feature_columns ++ [column.name] }
    else
      { fields with feature_columns := fields.feature_columns ++ [column.name] }
  else if column.type == "categorical" && column.role == "prediction" then
    { fields with prediction_label_columns :=
        fields.prediction_label_columns ++ [column.name] }
  else if column.type == "numerical" && column.role == "prediction" then
    { fields with prediction_score_columns :=
        fields.prediction_score_columns ++ [column.name] }
  else if column.type == "numerical_sequence" && column.role == "prediction" then
    fields
  else if column.type == "categorical" && column.role == "target" then
    { fields with actual_label_columns :=
        fields.actual_label_columns ++ [column.name] }
  else if column.type == "numerical" && column.role == "target" then
    { fields with actual_score_columns :=
        fields.actual_score_columns ++ [column.name] }
  else if column.type == "numerical_sequence" && column.role == "target" then
    fields
  else
    fields

/-- `_stat_fields`: fold the routing over the schema, starting from empty
buckets (`_FieldStats()` with list factories). -/
def _stat_fields (schema : List Column) : _FieldStats :=
  schema.foldl _stat_route ⟨[], [], [], [], [], []⟩

/-- The routing table of the specification (spec section 4.1), stated
independently of the source: each bucket collects, in schema declaration
order, the names of the columns the table routes to it. -/
def routingTableBuckets (schema : List Column) : _FieldStats where
  prediction_label_columns :=
    (schema.filter fun c => c.role == "prediction" && c.type == "categorical").map Column.name
  prediction_score_columns :=
    (schema.filter fun c => c.role == "prediction" && c.type == "numerical").map Column.name
  actual_label_columns :=
    (schema.filter fun c => c.role == "target" && c.type == "categorical").map Column.name
  actual_score_columns :=
    (schema.filter fun c => c.role == "target" && c.type == "numerical").map Column.name
  feature_columns :=
    (schema.filter fun c => c.role == "feature" && c.type != "numerical_sequence").map Column.name
  embedding_feature_columns :=
    (schema.filter fun c => c.role == "feature" && c.type == "numerical_sequence").map Column.name

/-- Field-wise concatenation of two `_FieldStats`, used to relate the foldl of
`_stat_fields` to `routingTableBuckets`. -/
def statAppend (a b : _FieldStats) : _FieldStats where
  prediction_label_columns := a.prediction_label_columns ++ b.prediction_label_columns
  prediction_score_columns := a.prediction_score_columns ++ b.prediction_score_columns
  actual_label_columns := a.actual_label_columns ++ b.actual_label_columns
  actual_score_columns := a.actual_score_columns ++ b.actual_score_columns
  feature_columns := a.feature_columns ++ b.feature_columns
  embedding_feature_columns := a.embedding_feature_columns ++ b.embedding_feature_columns

/-- `_is_valid_classification_form` (source lines 87-102): a label bucket is
non-empty and the score bucket of the same side is empty.  With `warn` the
source logs the extra label columns that would be ignored. -/
def _is_valid_classification_form (fields : _FieldStats) (warn : Bool) :
    Bool × List Warning :=
  if !fields.prediction_label_columns.isEmpty &&
      fields.prediction_score_columns.isEmpty then
    (true,
      if warn && decide (1 < fields.prediction_label_columns.length) then
        [.extraColumns "prediction label" (fields.prediction_label_columns.drop 1)]
      else [])
  else if !fields.actual_label_columns.isEmpty &&
      fields.actual_score_columns.isEmpty then
    (true,
      if warn && decide (1 < fields.actual_label_columns.length) then
        [.extraColumns "actual label" (fields.actual_label_columns.drop 1)]
      else [])
  else
    (false, [])

/-- `_is_valid_scored_classification_form` (source lines 105-132): a label
bucket and the score bucket of the same side are both non-empty. -/
def _is_valid_scored_classification_form (fields : _FieldStats) (warn : Bool) :
    Bool × List Warning :=
  if !fields.prediction_label_columns.isEmpty &&
      !fields.prediction_score_columns.isEmpty then
    (true,
      (if warn && decide (1 < fields.prediction_label_columns.length) then
        [.extraColumns "prediction label" (fields.prediction_label_columns.drop 1)]
      else []) ++
      (if warn && decide (1 < fields.prediction_score_columns.length) then
        [.extraColumns "prediction score" (fields.prediction_score_columns.drop 1)]
      else []))
  else if !fields.actual_label_columns.isEmpty &&
      !fields.actual_score_columns.isEmpty then
    (true,
      (if warn && decide (1 < fields.actual_label_columns.length) then
        [.extraColumns "actual label" (fields.actual_label_columns.drop 1)]
      else []) ++
      (if warn && decide (1 < fields.actual_score_columns.length) then
        [.extraColumns "actual score" (fields.actual_score_columns.drop 1)]
      else []))
  else
    (false, [])

/-- `_is_valid_regression_form` (source lines 135-151).  Its first statement
is `assert fields.is_filled`, but the attrs slots class `_FieldStats` defines
no attribute `is_filled`, so evaluating the assert condition raises
`AttributeError` before any check can run.  The checks the function would
perform after that line are kept separately as `_regression_form_body`. -/
def _is_valid_regression_form (fields : _FieldStats) (warn : Bool) :
    Except PyError (Bool × List Warning) :=
  .error (.attributeError "_FieldStats object has no attribute is_filled")

/-- The check on source lines 137-151, the part of `_is_valid_regression_form`
after its dead `assert fields.is_filled` line: a score bucket is non-empty and
the label bucket of the same side is empty. -/
def _regression_form_body (fields : _FieldStats) (warn : Bool) :
    Bool × List Warning :=
  if !fields.prediction_score_columns.isEmpty &&
      fields.prediction_label_columns.isEmpty then
    (true,
      if warn && decide (1 < fields.prediction_score_columns.length) then
        [.extraColumns "prediction score" (fields.prediction_score_columns.drop 1)]
      else [])
  else if !fields.actual_score_columns.isEmpty &&
      fields.actual_label_columns.isEmpty then
    (true,
      if warn && decide (1 < fields.actual_score_columns.length) then
        [.extraColumns "actual score" (fields.actual_score_columns.drop 1)]
      else [])
  else
    (false, [])

/-- `_infer_mapping` (source lines 154-191): decide the mapping from the
buckets and the optional `model_type` hint.  Returns the mapping together
with the warnings logged on the taken path. -/
def _infer_mapping (fields : _FieldStats) (model_type : Option ModelTypes) :
    Except PyError (Mapping × List Warning) :=
  match model_type with
  | none =>
    if (_is_valid_scored_classification_form fields false).1 then
      .ok (.SCORED_CLASSIFICATION, [])
    else if (_is_valid_classification_form fields false).1 then
      .ok (.CLASSIFICATION, [])
    else
      match _is_valid_regression_form fields false with
      | .error e => .error e
      | .ok (true, w) => .ok (.REGRESSION, w)
      | .ok (false, _) =>
        .error (.valueError
          "failed to find a valid mapping to arize schema for the given schema. Please specify a mapping using the model_type parameter.")
  | some ModelTypes.SCORE_CATEGORICAL =>
    match _is_valid_scored_classification_form fields true with
    | (true, w) => .ok (.SCORED_CLASSIFICATION, w)
    | (false, _) =>
      match _is_valid_classification_form fields true with
      | (true, w) => .ok (.CLASSIFICATION, w)
      | (false, _) => .error (.valueError "Not a valid arize classification schema")
  | some ModelTypes.NUMERIC =>
    match _is_valid_regression_form fields true with
    | .error e => .error e
    | .ok (true, w) => .ok (.REGRESSION, w)
    | .ok (false, _) => .error (.valueError "Not a valid arize regression schema")
  | some _ => .ok (.REGRESSION, [.unsupportedModelType])

/-- The `_mapping_to_model_type` dict (source lines 194-198).  `RANKING` has
no entry, so looking it up would raise `KeyError`. -/
def _mapping_to_model_type : Mapping → Except PyError ModelTypes
  | .SCORED_CLASSIFICATION => .ok .SCORE_CATEGORICAL
  | .CLASSIFICATION => .ok .SCORE_CATEGORICAL
  | .REGRESSION => .ok .NUMERIC
  | .RANKING => .error (.keyError "Mapping.RANKING")

/-- `list[0]` on a Python list: `IndexError` when empty. -/
def listGet0 (l : List String) : Except PyError String :=
  match l with
  | [] => .error .indexError
  | x :: _ => .ok x

/-- `record[k]` on a Python dict: `KeyError` when the key is absent. -/
def dictGetE (record : List (String × DataType)) (k : String) :
    Except PyError DataType :=
  match record.lookup k with
  | some v => .ok v
  | none => .error (.keyError k)

/-- `_map_data` (source lines 201-234): map one bentoml monitoring record to
the arize row fields `(prediction_label, actual_label, features,
embedding_features)`, following the chosen mapping.  Bucket indexing raises
`IndexError` on an empty bucket and record lookup raises `KeyError` on a
missing column, in the evaluation order of the source. -/
def _map_data (record : List (String × DataType)) (fields : _FieldStats)
    (mapping : Mapping) :
    Except PyError
      (ArizeLabel × ArizeLabel × List (String × DataType) × List (String × Embedding)) := do
  let labels : ArizeLabel × ArizeLabel ←
    match mapping with
    | Mapping.SCORED_CLASSIFICATION => do
      let plc ← listGet0 fields.prediction_label_columns
      let pl ← dictGetE record plc
      let psc ← listGet0 fields.prediction_score_columns
      let ps ← dictGetE record psc
      let alc ← listGet0 fields.actual_label_columns
      let al ← dictGetE record alc
      let asc ← listGet0 fields.actual_score_columns
      let asv ← dictGetE record asc
      pure (ArizeLabel.pair pl ps, ArizeLabel.pair al asv)
    | Mapping.CLASSIFICATION => do
      let plc ← listGet0 fields.prediction_label_columns
      let pl ← dictGetE record plc
      let alc ← listGet0 fields.actual_label_columns
      let al ← dictGetE record alc
      pure (ArizeLabel.scalar pl, ArizeLabel.scalar al)
    | Mapping.REGRESSION => do
      let plc ← listGet0
        (fields.prediction_score_columns ++ fields.prediction_label_columns)
      let pl ← dictGetE record plc
      let alc ← listGet0
        (fields.actual_score_columns ++ fields.actual_label_columns)
      let al ← dictGetE record alc
      pure (ArizeLabel.scalar pl, ArizeLabel.scalar al)
    | Mapping.RANKING => do
      -- the unsupported-mapping fallback of the source: warn and use the
      -- score columns alone
      let plc ← listGet0 fields.prediction_score_columns
      let pl ← dictGetE record plc
      let alc ← listGet0 fields.actual_score_columns
      let al ← dictGetE record alc
      pure (ArizeLabel.scalar pl, ArizeLabel.scalar al)
  let features ← fields.feature_columns.mapM fun c => do
    pure (c, ← dictGetE record c)
  let embedding_features ← fields.embedding_feature_columns.mapM fun c => do
    pure (c, Embedding.mk (← dictGetE record c))
  pure (labels.1, labels.2, features, embedding_features)

/-- The `ArizeMonitor` instance state.  Client/connection options (api key,
space key, uri, worker pool) configure the external client only and are not
part of the modelled state; `_client_ready` stands for `_init_client` having
constructed the client. -/
structure ArizeMonitor where
  model_type : Option ModelTypes
  model_id : Option String
  model_version : Option String
  environment : Option Environments
  model_tags : Option (List (String × DataType))
  _is_recording : Bool
  _is_first_record : Bool
  _is_first_column : Bool
  _schema : List Column
  _columns : List (String × List DataType)
  _data_converter : Option (_FieldStats × Mapping)
  _client_ready : Bool
deriving DecidableEq

/-- The `__init__` of `ArizeMonitor`, restricted to the modelled state. -/
def ArizeMonitor.init (model_type : Option ModelTypes) (model_id : Option String)
    (model_version : Option String) (environment : Option Environments)
    (model_tags : Option (List (String × DataType))) : ArizeMonitor where
  model_type := model_type
  model_id := model_id
  model_version := model_version
  environment := environment
  model_tags := model_tags
  _is_recording := false
  _is_first_record := true
  _is_first_column := false
  _schema := []
  _columns := []
  _data_converter := none
  _client_ready := false

/-- `defaultdict(deque)` append: `self._columns[name].append(v)` creates the
queue on first use, keeping dict insertion order. -/
def colAppend (cols : List (String × List DataType)) (name : String)
    (v : DataType) : List (String × List DataType) :=
  match cols with
  | [] => [(name, [v])]
  | (k, vs) :: rest =>
    if k = name then (k, vs ++ [v]) :: rest
    else (k, vs) :: colAppend rest name v

/-- `ArizeMonitor.start_record`. -/
def ArizeMonitor.start_record (s : ArizeMonitor) : ArizeMonitor :=
  { s with _is_first_column := true }

/-- `ArizeMonitor.log` (source lines 379-409).  `now` is the ambient wall
clock (`datetime.datetime.now().timestamp()`) and `request_id` the ambient
`trace_context.request_id`.  On an exception the returned state is the state
at the moment of the raise. -/
def ArizeMonitor.log (s : ArizeMonitor) (now : Rat) (request_id : Option Int)
    (data : DataType) (name : String) (role : String) (data_type : String) :
    ArizeMonitor × Option PyError :=
  if name ∈ PRESERVED_COLUMNS then
    (s, some (.valueError
      ("Column name " ++ name ++ " is preserved. Please use a different name.")))
  else if role ∉ BENTOML_MONITOR_ROLES then
    (s, some (.assertionError ("Invalid role " ++ role)))
  else if data_type ∉ BENTOML_MONITOR_TYPES then
    (s, some (.assertionError ("Invalid data type " ++ data_type)))
  else
    let s1 :=
      if s._is_first_record then
        { s with _schema :=
            s._schema ++ [{ name := name, role := role, type := data_type }] }
      else s
    if s1._is_first_column then
      let s2 := { s1 with _is_first_column := false }
      let s3 := { s2 with _columns := colAppend s2._columns COLUMN_TIME (.float now) }
      match request_id with
      | none => (s3, some (.assertionError "trace_context.request_id is not None"))
      | some rid =>
        let s4 := { s3 with _columns := colAppend s3._columns COLUMN_RID (.int rid) }
        ({ s4 with _columns := colAppend s4._columns name data }, none)
    else
      ({ s1 with _columns := colAppend s1._columns name data }, none)

/-- The ambient `component_context` used by `export_schema` to resolve a
default model id and version (external collaborator). -/
structure ComponentContext where
  bento_name : String
  bento_version : String
deriving DecidableEq

/-- The tail of `export_schema` (source lines 333-342): resolve default model
id/version from the deployment context, default the environment, and
construct the client. -/
def finishSchemaExport (s : ArizeMonitor) (ctx : ComponentContext) : ArizeMonitor :=
  let s1 :=
    if s.model_version = none ∧ s.model_id = none then
      { s with model_id := some ctx.bento_name,
               model_version := some ctx.bento_version }
    else s
  let s2 :=
    if s1.environment = none then
      { s1 with environment := some Environments.PRODUCTION }
    else s1
  { s2 with _client_ready := true }

/-- `ArizeMonitor.export_schema` (source lines 320-342): classify the frozen
schema, infer the mapping, remember the data converter, then fill defaults
and build the client.  Returns the warnings logged by inference. -/
def ArizeMonitor.export_schema (s : ArizeMonitor) (ctx : ComponentContext) :
    ArizeMonitor × List Warning × Option PyError :=
  let fields := _stat_fields s._schema
  match _infer_mapping fields s.model_type with
  | .error e => (s, [], some e)
  | .ok (mapping, w) =>
    let s1 := { s with _data_converter := some (fields, mapping) }
    if s1.model_type = none then
      match _mapping_to_model_type mapping with
      | .error e => (s1, w, some e)
      | .ok mt => (finishSchemaExport { s1 with model_type := some mt } ctx, w, none)
    else
      (finishSchemaExport s1 ctx, w, none)

/-- One row forwarded to the sink client by `export_data`
(`self._client.log(...)`, source lines 362-375). -/
structure SinkRow where
  model_id : String
  model_type : ModelTypes
  environment : Environments
  model_version : Option String
  tags : Option (List (String × DataType))
  prediction_id : Int
  prediction_timestamp : Int
  batch_id : Option String
  prediction_label : ArizeLabel
  actual_label : ArizeLabel
  features : List (String × DataType)
  embedding_features : List (String × Embedding)
deriving DecidableEq

/-- The per-monitor constants of a sink row. -/
structure RowMeta where
  model_id : String
  model_type : ModelTypes
  environment : Environments
  model_version : Option String
  tags : Option (List (String × DataType))
deriving DecidableEq

/-- Python `int(q)` on a float: truncation toward zero. -/
def pyTrunc (q : Rat) : Int :=
  q.num.tdiv q.den

/-- The dict comprehension `{k: v.popleft() for k, v in self._columns.items()}`:
pop the front of every queue in insertion order.  When a queue is empty the
comprehension raises `IndexError`; the queues already visited keep their pops,
so the error carries the partially popped columns. -/
def popRecord : List (String × List DataType) →
    Except (List (String × List DataType))
      (List (String × DataType) × List (String × List DataType))
  | [] => .ok ([], [])
  | (k, vs) :: rest =>
    match vs with
    | [] => .error ((k, []) :: rest)
    | v :: vs2 =>
      match popRecord rest with
      | .error rest2 => .error ((k, vs2) :: rest2)
      | .ok (record, rest2) => .ok ((k, v) :: record, (k, vs2) :: rest2)

/-- Outcome of one iteration of the drain loop of `export_data`. -/
inductive StepOut where
  | brk (cols : List (String × List DataType))
  | err (e : PyError) (cols : List (String × List DataType))
  | row (r : SinkRow) (cols : List (String × List DataType))

/-- One iteration of the `while True` body of `export_data` (source lines
354-377): pop a record, read and type-check the reserved columns, run the
data converter, and build the sink row.  An `IndexError` — from a drained
queue or from the converter — is caught by the `except IndexError` clause and
ends the drain (`brk`); every other exception propagates (`err`). -/
def exportStep (conv? : Option (_FieldStats × Mapping)) (meta : RowMeta)
    (cols : List (String × List DataType)) : StepOut :=
  match popRecord cols with
  | .error cols2 => .brk cols2
  | .ok (record, cols2) =>
    match record.lookup COLUMN_TIME with
    | none => .err (.keyError COLUMN_TIME) cols2
    | some tsv =>
      match tsv with
      | DataType.float ts =>
        match record.lookup COLUMN_RID with
        | none => .err (.keyError COLUMN_RID) cols2
        | some ridv =>
          match ridv with
          | DataType.int rid =>
            match conv? with
            | none =>
              .err (.attributeError
                "ArizeMonitor object has no attribute _data_converter") cols2
            | some conv =>
              match _map_data record conv.1 conv.2 with
              | .error PyError.indexError => .brk cols2
              | .error e => .err e cols2
              | .ok d =>
                .row
                  { model_id := meta.model_id
                    model_type := meta.model_type
                    environment := meta.environment
                    model_version := meta.model_version
                    tags := meta.tags
                    prediction_id := rid
                    prediction_timestamp := pyTrunc ts
                    batch_id := none
                    prediction_label := d.1
                    actual_label := d.2.1
                    features := d.2.2.1
                    embedding_features := d.2.2.2 } cols2
          | _ => .err (.assertionError "prediction_id must be an int") cols2
      | _ => .err (.assertionError "timestamp must be a float") cols2

/-- The `while True` drain loop of `export_data`, run on fuel.  A run of the
loop pops the first queue once per completed iteration, so any fuel above
that queue's length is enough; `export_data` passes one more than it.  The
exhausted-fuel case is unreachable and modelled as an error so that nothing
can be proved from it. -/
def exportLoop (conv? : Option (_FieldStats × Mapping)) (meta : RowMeta) :
    Nat → List (String × List DataType) → List SinkRow →
    List (String × List DataType) × List SinkRow × Option PyError
  | 0, cols, acc => (cols, acc, some (.assertionError "drain loop fuel exhausted"))
  | fuel + 1, cols, acc =>
    match exportStep conv? meta cols with
    | .brk cols2 => (cols2, acc, none)
    | .err e cols2 => (cols2, acc, some e)
    | .row r cols2 => exportLoop conv? meta fuel cols2 (acc ++ [r])

/-- Fuel for `exportLoop`: one more than the length of the first queue, an
upper bound on the number of iterations the source loop can run. -/
def drainFuel (cols : List (String × List DataType)) : Nat :=
  match cols with
  | [] => 1
  | p :: _ => p.2.length + 1

/-- `ArizeMonitor.export_data` (source lines 344-377): assert that all queues
share one length (`len(set(len(q) for q in self._columns.values())) == 1`),
assert the model metadata is resolved, then drain.  Returns the final state,
the rows forwarded to the sink in order, and the propagated exception if
any. -/
def ArizeMonitor.export_data (s : ArizeMonitor) :
    ArizeMonitor × List SinkRow × Option PyError :=
  if ((s._columns.map fun p => p.2.length).dedup).length ≠ 1 then
    (s, [], some (.assertionError "All columns must have the same length"))
  else
    match s.model_id, s.model_type, s.environment with
    | none, _, _ => (s, [], some (.assertionError "model_id is not None"))
    | some _, none, _ => (s, [], some (.assertionError "model_type is not None"))
    | some _, some _, none =>
      (s, [], some (.assertionError "environment is not None"))
    | some mid, some mt, some env =>
      match exportLoop s._data_converter
          ⟨mid, mt, env, s.model_version, s.model_tags⟩
          (drainFuel s._columns) s._columns [] with
      | (cols2, rows, err) => ({ s with _columns := cols2 }, rows, err)

/-- The result of `stop_record`: the new state, the rows forwarded to the
sink, the warnings logged, and the propagated exception if any. -/
structure StopResult where
  state : ArizeMonitor
  rows : List SinkRow
  warnings : List Warning
  err : Option PyError
deriving DecidableEq

/-- `ArizeMonitor.stop_record` (source lines 307-318): on the first record,
export the schema (a raise there leaves `_is_first_record` set); then either
skip an empty record with a warning or export the buffered data. -/
def ArizeMonitor.stop_record (s : ArizeMonitor) (ctx : ComponentContext) :
    StopResult :=
  if s._is_first_record then
    match s.export_schema ctx with
    | (s1, w, some e) => ⟨s1, [], w, some e⟩
    | (s1, w, none) =>
      let s2 := { s1 with _is_first_record := false }
      if s2._is_first_column then
        ⟨s2, [], w ++ [.noDataLogged], none⟩
      else
        match s2.export_data with
        | (s3, rows, e2) => ⟨s3, rows, w, e2⟩
  else
    if s._is_first_column then
      ⟨s, [], [.noDataLogged], none⟩
    else
      match s.export_data with
      | (s3, rows, e2) => ⟨s3, rows, [], e2⟩

/-- The record the drain loop pops on its `i`-th iteration: the `i`-th
element of every queue, in queue insertion order.  (The default is never
reached when `i` is below every queue's length.) -/
def recordAt (cols : List (String × List DataType)) (i : Nat) :
    List (String × DataType) :=
  cols.map fun p => (p.1, p.2.getD i (DataType.int 0))

/-- A record the drain loop can convert into a sink row without raising: the
reserved columns are present with their expected runtime types and the data
converter succeeds. -/
def recordOk (conv : _FieldStats × Mapping) (record : List (String × DataType)) :
    Prop :=
  (∃ t : Rat, record.lookup COLUMN_TIME = some (DataType.float t)) ∧
  (∃ r : Int, record.lookup COLUMN_RID = some (DataType.int r)) ∧
  (∃ d, _map_data record conv.1 conv.2 = Except.ok d)

/-- The sink row the drain loop forwards for a given record, described from
the record alone: reserved columns give the prediction id and truncated
timestamp, the data converter gives the labels and feature maps.  (The
fallback arms are never reached for a record satisfying `recordOk`.) -/
def mkRow (meta : RowMeta) (conv : _FieldStats × Mapping)
    (record : List (String × DataType)) : SinkRow where
  model_id := meta.model_id
  model_type := meta.model_type
  environment := meta.environment
  model_version := meta.model_version
  tags := meta.tags
  prediction_id :=
    match record.lookup COLUMN_RID with
    | some (DataType.int r) => r
    | _ => 0
  prediction_timestamp :=
    match record.lookup COLUMN_TIME with
    | some (DataType.float t) => pyTrunc t
    | _ => 0
  batch_id := none
  prediction_label :=
    match _map_data record conv.1 conv.2 with
    | .ok d => d.1
    | .error _ => ArizeLabel.scalar (DataType.int 0)
  actual_label :=
    match _map_data record conv.1 conv.2 with
    | .ok d => d.2.1
    | .error _ => ArizeLabel.scalar (DataType.int 0)
  features :=
    match _map_data record conv.1 conv.2 with
    | .ok d => d.2.2.1
    | .error _ => []
  embedding_features :=
    match _map_data record conv.1 conv.2 with
    | .ok d => d.2.2.2
    | .error _ => []

/-- Scenario B, step 0: a freshly constructed monitor with no explicit model
configuration, with a record opened. -/
def sB0 : ArizeMonitor :=
  (ArizeMonitor.init none none none none none).start_record

/-- Scenario B, after logging `age = 30` (numerical feature).  The ambient
clock reads 1000.5 and the ambient request id is 1. -/
def sB1 : ArizeMonitor :=
  (sB0.log (2001/2) (some 1) (.int 30) "age" "feature" "numerical").1

/-- Scenario B, after logging `pred_label = "yes"` (categorical prediction). -/
def sB2 : ArizeMonitor :=
  (sB1.log (2001/2) (some 1) (.str "yes") "pred_label" "prediction" "categorical").1

/-- Scenario B, after logging `pred_score = 0.9` (numerical prediction). -/
def sB3 : ArizeMonitor :=
  (sB2.log (2001/2) (some 1) (.float (9/10)) "pred_score" "prediction" "numerical").1

/-- Scenario B, after logging `label = "yes"` (categorical target). -/
def sB4 : ArizeMonitor :=
  (sB3.log (2001/2) (some 1) (.str "yes") "label" "target" "categorical").1

/-- Scenario B: the result of closing the record. -/
def scenarioBResult : StopResult :=
  sB4.stop_record ⟨"my_bento", "1.0"⟩

/-- An empty very first record: `start_record()` then `stop_record()` on a
fresh monitor with zero `log` calls in between. -/
def emptyFirstRecordResult : StopResult :=
  ((ArizeMonitor.init none none none none none).start_record).stop_record
    ⟨"my_bento", "1.0"⟩

/-- A monitor whose schema is already frozen (`_is_first_record = false`)
sitting in an open record with nothing logged yet
(`_is_first_column = true`). -/
def idleOpenMonitor : ArizeMonitor :=
  { ArizeMonitor.init none none none none none with
      _is_first_record := false, _is_first_column := true }

/-- A monitor state whose buffers are inconsistent: column `a` was logged
once, column `b` twice. -/
def mismatchedMonitor : ArizeMonitor :=
  { ArizeMonitor.init none (some "model") none (some .PRODUCTION) none with
      _is_first_record := false,
      _schema := [⟨"a", "prediction", "numerical"⟩, ⟨"b", "target", "numerical"⟩],
      _columns := [(COLUMN_TIME, [.float 7]), (COLUMN_RID, [.int 3]),
                   ("a", [.float 1]), ("b", [.float 1, .float 2])],
      _data_converter :=
        some (⟨[], ["a"], [], ["b"], [], []⟩, Mapping.REGRESSION) }

/-- The classification-shaped field buckets of `roundTripMonitor`. -/
def rtFields : _FieldStats :=
  ⟨["pred_label"], [], ["label"], [], ["age"], []⟩

/-- A monitor with a frozen classification schema and one fully buffered
record: the two reserved columns and three user columns, one element each. -/
def roundTripMonitor : ArizeMonitor where
  model_type := some .SCORE_CATEGORICAL
  model_id := some "model"
  model_version := some "1.0"
  environment := some .PRODUCTION
  model_tags := none
  _is_recording := false
  _is_first_record := false
  _is_first_column := false
  _schema := [⟨"pred_label", "prediction", "categorical"⟩,
              ⟨"label", "target", "categorical"⟩,
              ⟨"age", "feature", "numerical"⟩]
  _columns := [(COLUMN_TIME, [.float 100]), (COLUMN_RID, [.int 7]),
               ("pred_label", [.str "yes"]), ("label", [.str "no"]),
               ("age", [.int 30])]
  _data_converter := some (rtFields, Mapping.CLASSIFICATION)
  _client_ready := true

/-! ## Supporting lemmas -/

theorem statAppend_empty (a : _FieldStats) :
    statAppend a ⟨[], [], [], [], [], []⟩ = a := by
  ext1 <;> simp [statAppend]

theorem stat_route_append (acc : _FieldStats) (c : Column) :
    _stat_route acc c = statAppend acc (routingTableBuckets [c]) := by
  obtain ⟨nm, rl, ty⟩ := c
  unfold _stat_route routingTableBuckets statAppend
  by_cases hf : rl = "feature" <;> by_cases hc : ty = "categorical" <;>
    by_cases hn : ty = "numerical" <;> by_cases hs : ty = "numerical_sequence" <;>
    by_cases hp : rl = "prediction" <;> by_cases ht : rl = "target" <;>
    ext1 <;> simp_all

theorem stat_foldl (schema : List Column) : ∀ acc : _FieldStats,
    schema.foldl _stat_route acc = statAppend acc (routingTableBuckets schema) := by
  induction schema with
  | nil => intro acc; simpa [List.foldl] using (statAppend_empty acc).symm
  | cons c cs ih =>
    intro acc
    rw [List.foldl_cons, ih, stat_route_append]
    ext1 <;> simp [statAppend, routingTableBuckets, List.filter_cons] <;>
      split <;> simp

theorem scored_form_fst (fields : _FieldStats) (w : Bool) :
    (_is_valid_scored_classification_form fields w).1 =
      ((!fields.prediction_label_columns.isEmpty &&
        !fields.prediction_score_columns.isEmpty) ||
       (!fields.actual_label_columns.isEmpty &&
        !fields.actual_score_columns.isEmpty)) := by
  unfold _is_valid_scored_classification_form
  split_ifs with h1 h2 <;> simp_all

theorem classification_form_fst (fields : _FieldStats) (w : Bool) :
    (_is_valid_classification_form fields w).1 =
      ((!fields.prediction_label_columns.isEmpty &&
        fields.prediction_score_columns.isEmpty) ||
       (!fields.actual_label_columns.isEmpty &&
        fields.actual_score_columns.isEmpty)) := by
  unfold _is_valid_classification_form
  split_ifs with h1 h2 <;> simp_all

theorem regression_body_fst (fields : _FieldStats) (w : Bool) :
    (_regression_form_body fields w).1 =
      ((!fields.prediction_score_columns.isEmpty &&
        fields.prediction_label_columns.isEmpty) ||
       (!fields.actual_score_columns.isEmpty &&
        fields.actual_label_columns.isEmpty)) := by
  unfold _regression_form_body
  split_ifs with h1 h2 <;> simp_all

/-! ## Claim theorems -/

/-- Claim C1.  For every schema whose classified buckets contain at least one
prediction_score column and no prediction_label column, and whose target side
fails the scored and plain classification predicates, the claim says `infer`
with no hint returns Regression.  The code instead raises: the chain reaches
`_is_valid_regression_form`, whose first line `assert fields.is_filled`
references an attribute `_FieldStats` does not define, so `AttributeError` is
raised — even though the check the function was meant to perform (kept as
`_regression_form_body`) holds for every such bucket configuration. -/
theorem infer_score_only_hits_dead_assert (fields : _FieldStats)
    (hps : fields.prediction_score_columns ≠ [])
    (hpl : fields.prediction_label_columns = [])
    (hts : ¬(fields.actual_label_columns ≠ [] ∧ fields.actual_score_columns ≠ []))
    (htc : ¬(fields.actual_label_columns ≠ [] ∧ fields.actual_score_columns = [])) :
    _infer_mapping fields none =
      .error (.attributeError "_FieldStats object has no attribute is_filled") ∧
    (_regression_form_body fields false).1 = true := by
  have hal : fields.actual_label_columns = [] := by
    by_contra h
    rcases eq_or_ne fields.actual_score_columns [] with he | he
    · exact htc ⟨h, he⟩
    · exact hts ⟨h, he⟩
  have hs : (_is_valid_scored_classification_form fields false).1 = false := by
    rw [scored_form_fst]; simp [hpl, hal]
  have hc : (_is_valid_classification_form fields false).1 = false := by
    rw [classification_form_fst]; simp [hpl, hal]
  refine ⟨by simp [_infer_mapping, hs, hc, _is_valid_regression_form], ?_⟩
  rw [regression_body_fst]
  simp [List.isEmpty_iff, hps, hpl]

/-- Witness for C1 at a concrete input: one prediction score column and
nothing else. -/
theorem infer_score_only_hits_dead_assert_witness :
    ((⟨[], ["s"], [], [], [], []⟩ : _FieldStats).prediction_score_columns ≠ [] ∧
     (⟨[], ["s"], [], [], [], []⟩ : _FieldStats).prediction_label_columns = []) ∧
    _infer_mapping ⟨[], ["s"], [], [], [], []⟩ none =
      .error (.attributeError "_FieldStats object has no attribute is_filled") ∧
    (_regression_form_body ⟨[], ["s"], [], [], [], []⟩ false).1 = true :=
  ⟨⟨by decide, rfl⟩,
    infer_score_only_hits_dead_assert ⟨[], ["s"], [], [], [], []⟩
      (by decide) rfl (by decide) (by decide)⟩

/-- Claim C2.  For buckets satisfying none of the three validity predicates
on either side, the claim says `infer` with no hint fails with
`SchemaError("no valid mapping")` and with no other kind of error.  The code
does fail, but with `AttributeError`: `_is_valid_regression_form` evaluates
`assert fields.is_filled` on an attribute `_FieldStats` does not define, so
the intended `ValueError` ("failed to find a valid mapping ...") is never
reached. -/
theorem infer_no_valid_mapping_hits_dead_assert (fields : _FieldStats)
    (h1 : (_is_valid_scored_classification_form fields false).1 = false)
    (h2 : (_is_valid_classification_form fields false).1 = false)
    (h3 : (_regression_form_body fields false).1 = false) :
    _infer_mapping fields none =
      .error (.attributeError "_FieldStats object has no attribute is_filled") := by
  simp [_infer_mapping, h1, h2, _is_valid_regression_form]

/-- Witness for C2 at a concrete input: a single feature column, so every
label and score bucket is empty. -/
theorem infer_no_valid_mapping_hits_dead_assert_witness :
    ((_is_valid_scored_classification_form
        (_stat_fields [⟨"age", "feature", "numerical"⟩]) false).1 = false ∧
     (_regression_form_body
        (_stat_fields [⟨"age", "feature", "numerical"⟩]) false).1 = false) ∧
    _infer_mapping (_stat_fields [⟨"age", "feature", "numerical"⟩]) none =
      .error (.attributeError "_FieldStats object has no attribute is_filled") :=
  ⟨⟨by decide, by decide⟩,
    infer_no_valid_mapping_hits_dead_assert _ (by decide) (by decide) (by decide)⟩

/-- Claim C5 (confirmed).  Whenever one side has both its label bucket and
its score bucket non-empty, `infer` with no hint returns ScoredClassification
with no warning: the scored-classification predicate is checked first and its
success short-circuits the classification and regression checks. -/
theorem infer_scored_classification_first (fields : _FieldStats)
    (h : (fields.prediction_label_columns ≠ [] ∧
          fields.prediction_score_columns ≠ []) ∨
         (fields.actual_label_columns ≠ [] ∧
          fields.actual_score_columns ≠ [])) :
    _infer_mapping fields none = .ok (Mapping.SCORED_CLASSIFICATION, []) := by
  have hs : (_is_valid_scored_classification_form fields false).1 = true := by
    rw [scored_form_fst]
    rcases h with ⟨h1, h2⟩ | ⟨h1, h2⟩ <;>
      simp [List.isEmpty_iff, h1, h2]
  simp [_infer_mapping, hs]

/-- Witness for C5: a prediction label and a prediction score column. -/
theorem infer_scored_classification_first_witness :
    ((⟨["l"], ["s"], [], [], [], []⟩ : _FieldStats).prediction_label_columns ≠ [] ∧
     (⟨["l"], ["s"], [], [], [], []⟩ : _FieldStats).prediction_score_columns ≠ []) ∧
    _infer_mapping ⟨["l"], ["s"], [], [], [], []⟩ none =
      .ok (Mapping.SCORED_CLASSIFICATION, []) :=
  ⟨⟨by decide, by decide⟩,
    infer_scored_classification_first ⟨["l"], ["s"], [], [], [], []⟩
      (Or.inl ⟨by decide, by decide⟩)⟩

/-- Claim C6 (confirmed).  `_stat_fields` equals, on every schema, the bucket
assignment read off the routing table of the specification: features with a
numerical_sequence type go to embedding_feature, other features to feature,
prediction/categorical to prediction_label, prediction/numerical to
prediction_score, target/categorical to actual_label, target/numerical to
actual_score, and sequence-typed prediction or target columns are dropped;
each bucket lists its columns in schema declaration order (the filters
preserve it).  Determinism and purity are inherent: both sides are functions
of the schema alone. -/
theorem stat_fields_matches_routing_table (schema : List Column) :
    _stat_fields schema = routingTableBuckets schema := by
  rw [_stat_fields, stat_foldl]
  ext1 <;> simp [statAppend]

/-- Claim C7 (confirmed).  For every bucket configuration, a hint that is
neither the classification-like kind (`SCORE_CATEGORICAL`) nor the numeric
kind makes `infer` return Regression with the unsupported-model-type warning,
unconditionally — no validity predicate is consulted. -/
theorem infer_unsupported_hint_returns_regression (fields : _FieldStats)
    (mt : ModelTypes) (h1 : mt ≠ ModelTypes.SCORE_CATEGORICAL)
    (h2 : mt ≠ ModelTypes.NUMERIC) :
    _infer_mapping fields (some mt) =
      .ok (Mapping.REGRESSION, [Warning.unsupportedModelType]) := by
  cases mt <;> simp_all [_infer_mapping]

/-- Witness for C7: the RANKING hint on fully empty buckets, a configuration
on which every validity predicate would fail. -/
theorem infer_unsupported_hint_returns_regression_witness :
    (ModelTypes.RANKING ≠ ModelTypes.SCORE_CATEGORICAL ∧
     ModelTypes.RANKING ≠ ModelTypes.NUMERIC) ∧
    _infer_mapping ⟨[], [], [], [], [], []⟩ (some ModelTypes.RANKING) =
      .ok (Mapping.REGRESSION, [Warning.unsupportedModelType]) :=
  ⟨⟨by decide, by decide⟩,
    infer_unsupported_hint_returns_regression ⟨[], [], [], [], [], []⟩
      ModelTypes.RANKING (by decide) (by decide)⟩

/-- Claim C3.  In Scenario B (age=30 numerical feature, pred_label="yes"
categorical prediction, pred_score=0.9 numerical prediction, label="yes"
categorical target, one record) the claim says the inferred mapping is
ScoredClassification — which holds — and that export produces exactly one
sink row with prediction_label ("yes", 0.9).  Instead `_map_data` indexes the
empty `actual_score_columns` bucket, the resulting `IndexError` is caught by
the `except IndexError` clause of `export_data` and treated as the end of the
drain, and the record is silently dropped: zero rows reach the sink and no
error surfaces. -/
theorem scenario_b_export_drops_row :
    scenarioBResult.state._data_converter =
      some (_stat_fields sB4._schema, Mapping.SCORED_CLASSIFICATION) ∧
    _map_data (recordAt sB4._columns 0) (_stat_fields sB4._schema)
      Mapping.SCORED_CLASSIFICATION = .error PyError.indexError ∧
    scenarioBResult.rows = [] ∧
    scenarioBResult.err = none :=
  ⟨rfl, rfl, rfl, rfl⟩

/-- Claim C4, counterexample.  On the very first record of the Monitor,
`stop_record` with zero `log` calls does not skip-and-warn: it first runs
`export_schema`, whose mapping inference fails on the empty schema (via the
dead `assert fields.is_filled`), so an error propagates and no warning is
emitted. -/
theorem stop_record_empty_first_record_errors :
    emptyFirstRecordResult.err =
      some (PyError.attributeError "_FieldStats object has no attribute is_filled") ∧
    emptyFirstRecordResult.warnings = [] ∧
    emptyFirstRecordResult.rows = [] :=
  ⟨rfl, rfl, rfl⟩

/-- Claim C4, amended.  For every record bracketed by `start_record` and
`stop_record` in which no log call occurs and which is not the very first
record of the Monitor, `stop_record` skips the export, emits the no-data
warning, leaves the state untouched, and no row reaches the sink.  (An empty
very first record instead fails inside `export_schema`.) -/
theorem stop_record_empty_nonfirst_skips (s : ArizeMonitor)
    (ctx : ComponentContext) (h1 : s._is_first_record = false)
    (h2 : s._is_first_column = true) :
    s.stop_record ctx = ⟨s, [], [Warning.noDataLogged], none⟩ := by
  simp [ArizeMonitor.stop_record, h1, h2]

/-- Witness for the amended C4: a frozen-schema monitor with an open, empty
record. -/
theorem stop_record_empty_nonfirst_skips_witness :
    (idleOpenMonitor._is_first_record = false ∧
     idleOpenMonitor._is_first_column = true) ∧
    idleOpenMonitor.stop_record ⟨"my_bento", "1.0"⟩ =
      ⟨idleOpenMonitor, [], [Warning.noDataLogged], none⟩ :=
  ⟨⟨rfl, rfl⟩,
   stop_record_empty_nonfirst_skips idleOpenMonitor ⟨"my_bento", "1.0"⟩ rfl rfl⟩

/-- Claim C8 (confirmed).  If two buffered queues have unequal lengths when
export begins, the length assertion at the top of `export_data` fails — the
buffer-consistency error — before any row is popped or forwarded: the state
is returned untouched and no sink row is produced. -/
theorem export_data_unequal_queues_asserts (s : ArizeMonitor)
    (h : ∃ p ∈ s._columns, ∃ q ∈ s._columns, p.2.length ≠ q.2.length) :
    s.export_data =
      (s, [], some (.assertionError "All columns must have the same length")) := by
  obtain ⟨p, hp, q, hq, hne⟩ := h
  have hd : ((s._columns.map fun r => r.2.length).dedup).length ≠ 1 := by
    intro hlen1
    obtain ⟨a, ha⟩ := List.length_eq_one.mp hlen1
    have h1 : p.2.length ∈ (s._columns.map fun r => r.2.length).dedup :=
      List.mem_dedup.mpr (List.mem_map_of_mem _ hp)
    have h2 : q.2.length ∈ (s._columns.map fun r => r.2.length).dedup :=
      List.mem_dedup.mpr (List.mem_map_of_mem _ hq)
    rw [ha, List.mem_singleton] at h1 h2
    exact hne (h1.trans h2.symm)
  simp [ArizeMonitor.export_data, hd]

/-- Witness for C8: column `a` holds one element, column `b` two. -/
theorem export_data_unequal_queues_asserts_witness :
    (∃ p ∈ mismatchedMonitor._columns, ∃ q ∈ mismatchedMonitor._columns,
       p.2.length ≠ q.2.length) ∧
    mismatchedMonitor.export_data =
      (mismatchedMonitor, [],
       some (.assertionError "All columns must have the same length")) :=
  ⟨⟨(COLUMN_TIME, [.float 7]), by decide, ("b", [.float 1, .float 2]),
     by decide, by decide⟩,
   export_data_unequal_queues_asserts mismatchedMonitor
     ⟨(COLUMN_TIME, [.float 7]), by decide, ("b", [.float 1, .float 2]),
      by decide, by decide⟩⟩

/-- Claim C10 (confirmed).  `log` is atomic on its validation failures: when
the column name is reserved, the role is not one of the monitor roles, or the
type is not one of the monitor types, `log` raises and returns the state
exactly as it was — schema, every buffer queue, and the first-value flag
included — because all three checks precede every mutation in the source. -/
theorem log_invalid_leaves_state_unchanged (s : ArizeMonitor) (now : Rat)
    (request_id : Option Int) (data : DataType) (name role data_type : String)
    (h : name ∈ PRESERVED_COLUMNS ∨ role ∉ BENTOML_MONITOR_ROLES ∨
         data_type ∉ BENTOML_MONITOR_TYPES) :
    ∃ e, s.log now request_id data name role data_type = (s, some e) := by
  by_cases h1 : name ∈ PRESERVED_COLUMNS
  · exact ⟨.valueError
      ("Column name " ++ name ++ " is preserved. Please use a different name."),
      by simp [ArizeMonitor.log, h1]⟩
  · by_cases h2 : role ∈ BENTOML_MONITOR_ROLES
    · have h3 : data_type ∉ BENTOML_MONITOR_TYPES := by tauto
      exact ⟨.assertionError ("Invalid data type " ++ data_type),
        by simp [ArizeMonitor.log, h1, h2, h3]⟩
    · exact ⟨.assertionError ("Invalid role " ++ role),
        by simp [ArizeMonitor.log, h1, h2]⟩

/-- Witness for C10: logging under the reserved name "timestamp" into a
monitor with an open record. -/
theorem log_invalid_leaves_state_unchanged_witness :
    ("timestamp" ∈ PRESERVED_COLUMNS ∨ "feature" ∉ BENTOML_MONITOR_ROLES ∨
     "numerical" ∉ BENTOML_MONITOR_TYPES) ∧
    ∃ e, idleOpenMonitor.log 0 none (.int 1) "timestamp" "feature" "numerical" =
      (idleOpenMonitor, some e) :=
  ⟨Or.inl (by decide),
   log_invalid_leaves_state_unchanged idleOpenMonitor 0 none (.int 1)
     "timestamp" "feature" "numerical" (Or.inl (by decide))⟩

theorem getD_tail (l : List DataType) (i : Nat) (d : DataType) :
    l.tail.getD i d = l.getD (i + 1) d := by
  cases l <;> simp [List.getD]

theorem recordAt_tail (cols : List (String × List DataType)) (i : Nat) :
    recordAt (cols.map fun p => (p.1, p.2.tail)) i = recordAt cols (i + 1) := by
  unfold recordAt
  rw [List.map_map]
  congr 1
  funext p
  simp [getD_tail]

theorem map_empty_cols (cols : List (String × List DataType))
    (h : ∀ p ∈ cols, p.2 = []) :
    (cols.map fun p => (p.1, ([] : List DataType))) = cols := by
  induction cols with
  | nil => rfl
  | cons p rest ih =>
    obtain ⟨k, vs⟩ := p
    have hv : vs = [] := h (k, vs) (by simp)
    simp only [List.map_cons, hv]
    rw [ih fun q hq => h q (List.mem_cons_of_mem _ hq)]

theorem popRecord_ok (cols : List (String × List DataType))
    (h : ∀ p ∈ cols, p.2 ≠ []) :
    popRecord cols =
      .ok (recordAt cols 0, cols.map fun p => (p.1, p.2.tail)) := by
  induction cols with
  | nil => rfl
  | cons p rest ih =>
    obtain ⟨k, vs⟩ := p
    cases vs with
    | nil => exact absurd rfl (h (k, []) (by simp))
    | cons v vs2 =>
      rw [popRecord, ih fun q hq => h q (List.mem_cons_of_mem _ hq)]
      simp [recordAt]

theorem exportStep_row (conv : _FieldStats × Mapping) (meta : RowMeta)
    (cols : List (String × List DataType))
    (hne : ∀ p ∈ cols, p.2 ≠ [])
    (hok : recordOk conv (recordAt cols 0)) :
    exportStep (some conv) meta cols =
      .row (mkRow meta conv (recordAt cols 0))
        (cols.map fun p => (p.1, p.2.tail)) := by
  obtain ⟨⟨t, ht⟩, ⟨r, hr⟩, ⟨d, hd⟩⟩ := hok
  rw [exportStep, popRecord_ok cols hne]
  simp only [ht, hr, hd, mkRow]

theorem dedup_all_eq {l : List Nat} {a : Nat} (hne : l ≠ [])
    (h : ∀ x ∈ l, x = a) : l.dedup = [a] := by
  induction l with
  | nil => exact absurd rfl hne
  | cons x xs ih =>
    have hx : x = a := h x (by simp)
    cases xs with
    | nil =>
      subst hx
      simp [List.dedup_cons_of_not_mem]
    | cons y ys =>
      have hxs : (y :: ys).dedup = [a] :=
        ih (by simp) fun z hz => h z (List.mem_cons_of_mem _ hz)
      have hmem : x ∈ y :: ys := by
        have hy : y = a := h y (by simp)
        rw [hx, ← hy]
        exact List.mem_cons_self y ys
      rw [List.dedup_cons_of_mem hmem, hxs]

theorem exportLoop_drains (conv : _FieldStats × Mapping) (meta : RowMeta)
    (n : Nat) :
    ∀ (cols : List (String × List DataType)) (acc : List SinkRow)
      (fuel : Nat), n < fuel → cols ≠ [] →
      (∀ p ∈ cols, p.2.length = n) →
      (∀ i, i < n → recordOk conv (recordAt cols i)) →
      exportLoop (some conv) meta fuel cols acc =
        (cols.map fun p => (p.1, []),
         acc ++ (List.range n).map fun i => mkRow meta conv (recordAt cols i),
         none) := by
  induction n with
  | zero =>
    intro cols acc fuel hf hne hlen _
    obtain ⟨f, rfl⟩ : ∃ f, fuel = f + 1 := ⟨fuel - 1, by omega⟩
    match cols, hne with
    | (k, vs) :: rest, _ =>
      have hv : vs = [] := List.length_eq_zero.mp (hlen (k, vs) (by simp))
      subst hv
      rw [exportLoop, exportStep, popRecord]
      simp only [StepOut.brk.sizeOf_spec]  -- no-op simp to keep the match shape
      rw [List.range_zero, List.map_nil, List.append_nil,
        map_empty_cols _ fun p hp => List.length_eq_zero.mp (hlen p hp)]
  | succ n ih =>
    intro cols acc fuel hf hne hlen hok
    obtain ⟨f, rfl⟩ : ∃ f, fuel = f + 1 := ⟨fuel - 1, by omega⟩
    have hcne : ∀ p ∈ cols, p.2 ≠ [] := fun p hp => by
      have := hlen p hp
      intro he
      rw [he] at this
      simp at this
    rw [exportLoop, exportStep_row conv meta cols hcne (hok 0 (by omega))]
    show exportLoop (some conv) meta f (cols.map fun p => (p.1, p.2.tail))
      (acc ++ [mkRow meta conv (recordAt cols 0)]) = _
    rw [ih (cols.map fun p => (p.1, p.2.tail)) (acc ++ [mkRow meta conv (recordAt cols 0)]) f
      (by omega)
      (by simpa using hne)
      (by
        intro q hq
        obtain ⟨p, hp, rfl⟩ := List.mem_map.mp hq
        have := hlen p hp
        simp [List.length_tail, this])
      (by
        intro i hi
        rw [recordAt_tail]
        exact hok (i + 1) (by omega))]
    rw [List.map_map, List.append_assoc, List.range_succ_eq_map, List.map_cons,
      List.map_map, List.singleton_append]
    have hfun :
        ((fun i => mkRow meta conv (recordAt cols i)) ∘ Nat.succ) =
          fun i => mkRow meta conv
            (recordAt (cols.map fun p => (p.1, p.2.tail)) i) := by
      funext i
      simp [Function.comp, recordAt_tail]
    rw [hfun]
    rfl

/-- Claim C9 (confirmed).  Round-trip through the buffers: when every queue
(the user columns and the two reserved columns) holds exactly `n` buffered
elements and every buffered record converts cleanly, one `export_data` call
passes the consistency assertion, emits exactly one sink row per buffered
record — row `i` built FIFO from the `i`-th element of every queue — and
leaves every queue empty. -/
theorem export_data_round_trip (s : ArizeMonitor) (n : Nat) (mid : String)
    (mt : ModelTypes) (env : Environments) (conv : _FieldStats × Mapping)
    (hmid : s.model_id = some mid) (hmt : s.model_type = some mt)
    (henv : s.environment = some env) (hconv : s._data_converter = some conv)
    (hne : s._columns ≠ [])
    (hlen : ∀ p ∈ s._columns, p.2.length = n)
    (hok : ∀ i, i < n → recordOk conv (recordAt s._columns i)) :
    s.export_data =
      ({ s with _columns := s._columns.map fun p => (p.1, []) },
       (List.range n).map (fun i =>
         mkRow ⟨mid, mt, env, s.model_version, s.model_tags⟩ conv
           (recordAt s._columns i)),
       none) := by
  obtain ⟨smt, smid, smv, senv, stags, srec, sfr, sfc, ssch, scols, sconv, scr⟩ := s
  dsimp only at hmid hmt henv hconv hne hlen hok ⊢
  subst hmid hmt henv hconv
  have hded : ((scols.map fun p => p.2.length).dedup) = [n] :=
    dedup_all_eq (by simpa using hne) (fun x hx => by
      obtain ⟨p, hp, rfl⟩ := List.mem_map.mp hx
      exact hlen p hp)
  have hfuel : drainFuel scols = n + 1 := by
    cases hcols : scols with
    | nil => exact absurd hcols hne
    | cons p rest =>
      have hp := hlen p (by rw [hcols]; simp)
      simp [drainFuel, hp]
  unfold ArizeMonitor.export_data
  dsimp only
  rw [hded, if_neg (by simp), hfuel]
  rw [exportLoop_drains conv ⟨mid, mt, env, smv, stags⟩ n
    scols [] (n + 1) (by omega) hne hlen hok]
  simp

/-- Witness for C9: one fully buffered classification record (two reserved
plus three user columns, one element each) drains to exactly one sink row and
empty queues. -/
theorem export_data_round_trip_witness :
    (roundTripMonitor._columns ≠ [] ∧
     (∀ p ∈ roundTripMonitor._columns, p.2.length = 1) ∧
     (∀ i, i < 1 → recordOk (rtFields, Mapping.CLASSIFICATION)
        (recordAt roundTripMonitor._columns i))) ∧
    roundTripMonitor.export_data =
      ({ roundTripMonitor with
          _columns := roundTripMonitor._columns.map fun p => (p.1, []) },
       (List.range 1).map (fun i =>
         mkRow ⟨"model", .SCORE_CATEGORICAL, .PRODUCTION,
                roundTripMonitor.model_version, roundTripMonitor.model_tags⟩
           (rtFields, Mapping.CLASSIFICATION)
           (recordAt roundTripMonitor._columns i)),
       none) :=
  ⟨⟨by decide, by decide, fun i hi => by
      interval_cases i
      exact ⟨⟨100, rfl⟩, ⟨7, rfl⟩, ⟨_, rfl⟩⟩⟩,
   export_data_round_trip roundTripMonitor 1 "model" .SCORE_CATEGORICAL
     .PRODUCTION (rtFields, Mapping.CLASSIFICATION) rfl rfl rfl rfl
     (by decide) (by decide)
     (fun i hi => by
      interval_cases i
      exact ⟨⟨100, rfl⟩, ⟨7, rfl⟩, ⟨_, rfl⟩⟩)⟩
